import Mathlib

/-!
Verification of the atlas-cli MNIST example workflow
(`src/examples/workflows/mnist/{download,model,train,eval}.py`).

The Python scripts are embedded shallowly:
* Python floats are modelled by exact rationals (`ℚ`);
* raised exceptions are modelled by `Except`;
* the filesystem is modelled by a predicate on paths, with external
  interference (a file vanishing between the write and the existence check)
  supplied as an oracle;
* the deep-learning framework (tensors, autodiff, the optimiser's numeric
  update) is an external collaborator, abstracted as an opaque classifier
  `pred : α → Nat` for evaluation and an opaque parameter-update function
  `stepF` for training.
-/

namespace Atlas

/-- Python runtime errors that the embedded `eval` code can raise:
`ZeroDivisionError` from `100 * correct / total` when `total == 0`, and
`IndexError` from `class_correct[label]` when `label ≥ 10`. -/
inductive PyError where
  | zeroDivisionError
  | indexError
deriving DecidableEq, Repr

namespace MnistEval

/-- The mutable accumulator state of `eval` (eval.py lines 64-67):
`correct`, `total` are Python ints; `class_correct`, `class_total` are
Python lists of 10 floats, modelled as functions on the class index. -/
structure EvalState where
  correct : Nat
  total : Nat
  class_correct : Nat → ℚ
  class_total : Nat → ℚ

/-- eval.py lines 64-67: `correct = 0; total = 0;
class_correct = [0.0]*10; class_total = [0.0]*10`. -/
def initState : EvalState :=
  { correct := 0, total := 0, class_correct := fun _ => 0, class_total := fun _ => 0 }

/-- One iteration of the inner loop of `eval` (eval.py lines 85-88):
`label = batch_y[i]; class_correct[label] += c[i].item();
class_total[label] += 1`.  Indexing a length-10 Python list raises
`IndexError` when the label is not below 10. -/
def evalExample (pred : α → Nat) (st : EvalState) (ex : α × Nat) : Except PyError EvalState :=
  if ex.2 < 10 then
    .ok { st with
      class_correct := Function.update st.class_correct ex.2
        (st.class_correct ex.2 + (if pred ex.1 = ex.2 then 1 else 0)),
      class_total := Function.update st.class_total ex.2 (st.class_total ex.2 + 1) }
  else .error .indexError

/-- The inner `for i in range(batch_y.shape[0])` loop of `eval`. -/
def runExamples (pred : α → Nat) : List (α × Nat) → EvalState → Except PyError EvalState
  | [], st => .ok st
  | ex :: rest, st =>
    match evalExample pred st ex with
    | .ok st' => runExamples pred rest st'
    | .error e => .error e

/-- One iteration of the batch loop of `eval` (eval.py lines 72-88):
`total += batch_y.size(0); correct += (predicted == batch_y).sum().item()`,
then the per-example class-counter loop. -/
def evalBatch (pred : α → Nat) (st : EvalState) (batch : List (α × Nat)) :
    Except PyError EvalState :=
  runExamples pred batch
    { st with
      total := st.total + batch.length,
      correct := st.correct + batch.countP (fun ex => decide (pred ex.1 = ex.2)) }

/-- The outer `for _, (batch_x, batch_y) in enumerate(tqdm(data_loader))` loop. -/
def runBatches (pred : α → Nat) : List (List (α × Nat)) → EvalState → Except PyError EvalState
  | [], st => .ok st
  | b :: rest, st =>
    match evalBatch pred st b with
    | .ok st' => runBatches pred rest st'
    | .error e => .error e

/-- The key produced by the f-string `f"class_{i}_accuracy"` (eval.py line 94). -/
def classKey (i : Nat) : String := "class_" ++ toString i ++ "_accuracy"

/-- eval.py lines 90-94: `accuracy = 100 * correct / total` (Python int
division by zero raises `ZeroDivisionError` when `total == 0`), then for each
class `accuracy = 100 * class_correct[i] / (class_total[i] + 0.0001)`.
The insertion order of the Python dict `results` is kept as a list. -/
def evalResults (st : EvalState) : Except PyError (List (String × ℚ)) :=
  if st.total = 0 then .error .zeroDivisionError
  else
    .ok (("average_accuracy", 100 * (st.correct : ℚ) / (st.total : ℚ)) ::
      (List.range 10).map
        (fun i => (classKey i, 100 * st.class_correct i / (st.class_total i + 1 / 10000))))

/-- Embeds `eval` (eval.py lines 53-96): run the batch loop from the zeroed
counters, then build the results dict. -/
def evalRun (pred : α → Nat) (loader : List (List (α × Nat))) :
    Except PyError (List (String × ℚ)) :=
  match runBatches pred loader initState with
  | .ok st => evalResults st
  | .error e => .error e

end MnistEval

/-! ## Filesystem model shared by the three save functions -/

/-- A filesystem, as the set of paths that currently exist. -/
def FS := String → Bool

/-- Writing a file at `p` (the `open(p, "w")` / `json.dump` / `torch.save`
calls): afterwards `p` exists unless external interference — modelled by the
oracle `vanished`, e.g. the output directory being deleted mid-run — removed
it between the write and the subsequent existence check; other paths are
untouched.  File contents are not modelled, only existence. -/
def writeArtifact (fs : FS) (vanished : String → Bool) (p : String) : FS :=
  fun q => if q = p then !(vanished p) else fs q

/-- Python `IOError` carrying its message. -/
inductive PyIOError where
  | ioError (msg : String)
deriving DecidableEq, Repr

namespace MnistDownload

/-- Embeds `save_conf` (download.py lines 41-50): write
`download_conf.json`, raise `IOError("failed to save the config")` if the
file does not exist afterwards, else return its path. -/
def save_conf (vanished : String → Bool) (fs : FS) (conf : List (String × String))
    (output_dir : String) : Except PyIOError (String × FS) :=
  let conf_path := output_dir ++ "/download_conf.json"
  let fs1 := writeArtifact fs vanished conf_path
  if fs1 conf_path then .ok (conf_path, fs1)
  else .error (.ioError "failed to save the config")

end MnistDownload

namespace MnistTrain

/-- Embeds `save_model_and_conf` (train.py lines 90-105): write `model.pkl`,
check it exists, write `training_conf.json`, check it exists; raise an
`IOError` with the respective fixed message at the first failed check, else
return both paths. -/
def save_model_and_conf (vanished : String → Bool) (fs : FS)
    (conf : List (String × String)) (output_dir : String) :
    Except PyIOError ((String × String) × FS) :=
  let model_path := output_dir ++ "/model.pkl"
  let fs1 := writeArtifact fs vanished model_path
  if !(fs1 model_path) then .error (.ioError "failed to save the model")
  else
    let conf_path := output_dir ++ "/training_conf.json"
    let fs2 := writeArtifact fs1 vanished conf_path
    if !(fs2 conf_path) then .error (.ioError "failed to save the config")
    else .ok ((model_path, conf_path), fs2)

end MnistTrain

namespace MnistEval

/-- Embeds `save_results_and_conf` (eval.py lines 99-116): write
`eval_results.json`, check it exists, write `eval_conf.json`, check it
exists; raise an `IOError` with the respective fixed message at the first
failed check, else return both paths. -/
def save_results_and_conf (vanished : String → Bool) (fs : FS)
    (results : List (String × ℚ)) (conf : List (String × String))
    (output_dir : String) : Except PyIOError ((String × String) × FS) :=
  let results_path := output_dir ++ "/eval_results.json"
  let fs1 := writeArtifact fs vanished results_path
  if !(fs1 results_path) then .error (.ioError "failed to save the results")
  else
    let conf_path := output_dir ++ "/eval_conf.json"
    let fs2 := writeArtifact fs1 vanished conf_path
    if !(fs2 conf_path) then .error (.ioError "failed to save the config")
    else .ok ((results_path, conf_path), fs2)

end MnistEval

/-! ## The training loop -/

/-- The observable framework calls issued by `train`, in program order. -/
inductive TrainEvent where
  | toDevice
  | setTrain
  | zeroGrad
  | forwardPass
  | lossComp
  | backwardPass
  | optimStep
  | setEval
deriving DecidableEq, Repr

/-- A framework model object: opaque parameters plus the train/eval mode
flag toggled by `model.train()` / `model.eval()`. -/
structure PyModel (P : Type) where
  params : P
  training : Bool

namespace MnistTrain

/-- The body of the inner batch loop of `train` (train.py lines 75-84):
`optimiser.zero_grad(); ypred = model(batch_x); loss = loss_func(...);
loss.backward(); optimiser.step()`.  The numeric effect of the five calls on
the parameters is the external collaborator `stepF`; the calls themselves are
recorded in order in the trace. -/
def trainBatchStep (stepF : P → B → P) (acc : PyModel P × List TrainEvent) (b : B) :
    PyModel P × List TrainEvent :=
  ({ params := stepF acc.1.params b, training := acc.1.training },
   acc.2 ++ [.zeroGrad, .forwardPass, .lossComp, .backwardPass, .optimStep])

/-- Embeds `train` (train.py lines 54-87): `model.to(device); model.train()`,
then `for epoch in range(conf["epochs"])` a full pass over the batches, then
`model.eval(); return model`. -/
def train (stepF : P → B → P) (model : PyModel P) (batches : List B) (epochs : Nat) :
    PyModel P × List TrainEvent :=
  let start : PyModel P × List TrainEvent :=
    ({ params := model.params, training := true }, [.toDevice, .setTrain])
  let looped := (List.range epochs).foldl
    (fun acc _ => batches.foldl (trainBatchStep stepF) acc) start
  ({ params := looped.1.params, training := false }, looped.2 ++ [.setEval])

end MnistTrain

/-! ## The network architecture, defined once per file -/

/-- Configuration of `nn.Conv2d(in_channels, out_channels, kernel_size)`. -/
structure Conv2dCfg where
  in_channels : Nat
  out_channels : Nat
  kernel_size : Nat
deriving DecidableEq, Repr

/-- Configuration of `nn.Linear(in_features, out_features)`. -/
structure LinearCfg where
  in_features : Nat
  out_features : Nat
deriving DecidableEq, Repr

/-- One step of the `forward` computation, referring to the module's layers. -/
inductive FwdOp where
  | conv1
  | conv2
  | relu
  | pool
  | flatten (dim : Nat)
  | fc1
  | logSoftmax
deriving DecidableEq, Repr

/-- The architecture declared by an `MNIST_CNN(nn.Module)` class: the layer
configurations built in `__init__` and the sequence of operations applied by
`forward`. -/
structure CnnArch where
  conv1 : Conv2dCfg
  conv2 : Conv2dCfg
  relu_inplace : Bool
  pool_kernel_size : Nat
  fc1 : LinearCfg
  forward : List FwdOp
deriving DecidableEq, Repr

namespace MnistModel

/-- Embeds `MNIST_CNN` from model.py lines 5-22. -/
def MNIST_CNN : CnnArch :=
  { conv1 := ⟨1, 32, 5⟩
    conv2 := ⟨32, 64, 5⟩
    relu_inplace := true
    pool_kernel_size := 2
    fc1 := ⟨64 * 4 * 4, 10⟩
    forward := [.conv1, .pool, .relu, .conv2, .pool, .relu,
                .flatten (64 * 4 * 4), .fc1, .logSoftmax] }

end MnistModel

namespace MnistTrain

/-- Embeds the duplicated `MNIST_CNN` from train.py lines 34-51. -/
def MNIST_CNN : CnnArch :=
  { conv1 := ⟨1, 32, 5⟩
    conv2 := ⟨32, 64, 5⟩
    relu_inplace := true
    pool_kernel_size := 2
    fc1 := ⟨64 * 4 * 4, 10⟩
    forward := [.conv1, .pool, .relu, .conv2, .pool, .relu,
                .flatten (64 * 4 * 4), .fc1, .logSoftmax] }

end MnistTrain

namespace MnistEval

/-- Embeds the duplicated `MNIST_CNN` from eval.py lines 34-51. -/
def MNIST_CNN : CnnArch :=
  { conv1 := ⟨1, 32, 5⟩
    conv2 := ⟨32, 64, 5⟩
    relu_inplace := true
    pool_kernel_size := 2
    fc1 := ⟨64 * 4 * 4, 10⟩
    forward := [.conv1, .pool, .relu, .conv2, .pool, .relu,
                .flatten (64 * 4 * 4), .fc1, .logSoftmax] }

end MnistEval

/-! ## Device selection and model loading -/

/-- A torch device. -/
inductive PyDevice where
  | cpu
  | cuda
deriving DecidableEq, Repr

namespace MnistTrain

/-- Embeds the device-selection block of train.py's `__main__`
(lines 144-151).  The second component records whether the
`"use_cuda==True but no cuda devices found; will run on CPU"` warning was
logged.  The block never raises. -/
def selectDevice (use_cuda cuda_available : Bool) : PyDevice × Bool :=
  if use_cuda then
    if !cuda_available then (PyDevice.cpu, true)
    else (PyDevice.cuda, false)
  else (PyDevice.cpu, false)

end MnistTrain

namespace MnistEval

/-- Embeds the device-selection block of eval.py's `__main__`
(lines 172-179), textually identical to the one in train.py. -/
def selectDevice (use_cuda cuda_available : Bool) : PyDevice × Bool :=
  if use_cuda then
    if !cuda_available then (PyDevice.cpu, true)
    else (PyDevice.cuda, false)
  else (PyDevice.cpu, false)

/-- Embeds `load_to_device` (eval.py lines 119-129).  The outcomes of the
framework calls are supplied as oracles: `torch_load` is
`torch.load(path_to_model)`, `torch_load_cpu` is
`torch.load(path_to_model, map_location=torch.device("cpu"))`, and
`load_state_dict` applies a loaded weights dict to the freshly constructed
`MNIST_CNN()`.  The bare `except:` catches any failure of the first
load-and-apply attempt; the retry is not guarded, so its failure
propagates. -/
def load_to_device {E W M : Type} (torch_load torch_load_cpu : Except E W)
    (load_state_dict : W → Except E M) : Except E M :=
  match torch_load.bind load_state_dict with
  | .ok loaded_model => .ok loaded_model
  | .error _ => torch_load_cpu.bind load_state_dict

end MnistEval

/-! ## CLI parsing of `--use_cuda` -/

/-- Python's `bool` constructor applied to a string: truthy iff non-empty.
This is what `argparse` applies to the raw command-line token when an option
is declared with `type=bool`. -/
def pyBool (s : String) : Bool := !(s == "")

namespace MnistTrain

/-- The value of `args.use_cuda` in train.py's `__main__` (lines 137-139):
`default=False` when the option is absent, `bool(<raw token>)` when
present. -/
def parse_use_cuda (arg : Option String) : Bool :=
  match arg with
  | none => false
  | some s => pyBool s

end MnistTrain

namespace MnistEval

/-- The value of `args.use_cuda` in eval.py's `__main__` (lines 165-167),
declared identically to the one in train.py. -/
def parse_use_cuda (arg : Option String) : Bool :=
  match arg with
  | none => false
  | some s => pyBool s

end MnistEval

/-! ## Helper lemmas about the evaluation loop -/

namespace MnistEval

/-- Updating one cell of a class-counter array shifts its sum by the delta. -/
lemma sum_update_add (f : Nat → ℚ) (y : Nat) (hy : y < 10) (d : ℚ) :
    (∑ i ∈ Finset.range 10, Function.update f y (f y + d) i)
      = (∑ i ∈ Finset.range 10, f i) + d := by
  rw [Finset.sum_update_of_mem (Finset.mem_range.mpr hy),
    Finset.sum_eq_sum_diff_singleton_add (Finset.mem_range.mpr hy) f]
  ring

/-- The invariant linking the global counters of `eval` to the per-class
counter arrays. -/
def Inv (st : EvalState) : Prop :=
  (∑ i ∈ Finset.range 10, st.class_correct i) = (st.correct : ℚ) ∧
  (∑ i ∈ Finset.range 10, st.class_total i) = (st.total : ℚ) ∧
  st.correct ≤ st.total ∧
  ∀ i, 0 ≤ st.class_correct i ∧ st.class_correct i ≤ st.class_total i

lemma Inv_initState : Inv initState := by
  refine ⟨by simp [initState], by simp [initState], le_refl 0, fun i => ?_⟩
  simp [initState]

/-- The inner per-example loop succeeds on a batch of in-range labels and
its exact effect on the accumulator. -/
lemma runExamples_ok (pred : α → Nat) (batch : List (α × Nat)) :
    ∀ st : EvalState, (∀ ex ∈ batch, ex.2 < 10) →
    ∃ st', runExamples pred batch st = .ok st' ∧
      st'.correct = st.correct ∧
      st'.total = st.total ∧
      (∑ i ∈ Finset.range 10, st'.class_correct i)
        = (∑ i ∈ Finset.range 10, st.class_correct i)
          + (batch.countP (fun ex => decide (pred ex.1 = ex.2)) : ℚ) ∧
      (∑ i ∈ Finset.range 10, st'.class_total i)
        = (∑ i ∈ Finset.range 10, st.class_total i) + (batch.length : ℚ) ∧
      ((∀ i, 0 ≤ st.class_correct i ∧ st.class_correct i ≤ st.class_total i) →
        ∀ i, 0 ≤ st'.class_correct i ∧ st'.class_correct i ≤ st'.class_total i) := by
  induction batch with
  | nil =>
    intro st _
    exact ⟨st, rfl, rfl, rfl, by simp, by simp, fun h => h⟩
  | cons ex rest ih =>
    intro st hmem
    have hy : ex.2 < 10 := hmem ex (by simp)
    obtain ⟨st', h1, h2, h3, h4, h5, h6⟩ :=
      ih { st with
            class_correct := Function.update st.class_correct ex.2
              (st.class_correct ex.2 + (if pred ex.1 = ex.2 then 1 else 0)),
            class_total := Function.update st.class_total ex.2 (st.class_total ex.2 + 1) }
        (fun e he => hmem e (List.mem_cons_of_mem ex he))
    refine ⟨st', ?_, h2, h3, ?_, ?_, ?_⟩
    · rw [runExamples, evalExample, if_pos hy]
      exact h1
    · rw [h4]
      rw [show ({ st with
            class_correct := Function.update st.class_correct ex.2
              (st.class_correct ex.2 + (if pred ex.1 = ex.2 then 1 else 0)),
            class_total := Function.update st.class_total ex.2
              (st.class_total ex.2 + 1) } : EvalState).class_correct
          = Function.update st.class_correct ex.2
              (st.class_correct ex.2 + (if pred ex.1 = ex.2 then 1 else 0)) from rfl]
      rw [sum_update_add st.class_correct ex.2 hy]
      rw [List.countP_cons]
      by_cases hp : pred ex.1 = ex.2 <;> simp [hp] <;> push_cast <;> ring
    · rw [h5]
      rw [show ({ st with
            class_correct := Function.update st.class_correct ex.2
              (st.class_correct ex.2 + (if pred ex.1 = ex.2 then 1 else 0)),
            class_total := Function.update st.class_total ex.2
              (st.class_total ex.2 + 1) } : EvalState).class_total
          = Function.update st.class_total ex.2 (st.class_total ex.2 + 1) from rfl]
      rw [sum_update_add st.class_total ex.2 hy]
      push_cast [List.length_cons]
      ring
    · intro hpt
      refine h6 (fun i => ?_)
      dsimp only
      rcases eq_or_ne i ex.2 with hi | hi
      · rw [hi]
        constructor
        · rw [Function.update_same]
          have h0 : (0:ℚ) ≤ (if pred ex.1 = ex.2 then (1:ℚ) else 0) := by positivity
          linarith [(hpt ex.2).1]
        · rw [Function.update_same, Function.update_same]
          have h1 : (if pred ex.1 = ex.2 then (1:ℚ) else 0) ≤ 1 := by
            by_cases hp : pred ex.1 = ex.2 <;> simp [hp]
          linarith [(hpt ex.2).2]
      · rw [Function.update_noteq hi, Function.update_noteq hi]
        exact hpt i

/-- The batch step of `eval` succeeds on in-range labels and preserves the
invariant, increasing `total` by the batch size. -/
lemma evalBatch_ok (pred : α → Nat) (st : EvalState) (batch : List (α × Nat))
    (h : ∀ ex ∈ batch, ex.2 < 10) (hInv : Inv st) :
    ∃ st', evalBatch pred st batch = .ok st' ∧ Inv st' ∧
      st'.total = st.total + batch.length := by
  obtain ⟨st', h1, h2, h3, h4, h5, h6⟩ :=
    runExamples_ok pred batch
      { st with
        total := st.total + batch.length,
        correct := st.correct + batch.countP (fun ex => decide (pred ex.1 = ex.2)) } h
  obtain ⟨i1, i2, i3, i4⟩ := hInv
  refine ⟨st', h1, ⟨?_, ?_, ?_, h6 i4⟩, ?_⟩
  · rw [h4, h2]
    dsimp only
    rw [i1]
    push_cast
    ring
  · rw [h5, h3]
    dsimp only
    rw [i2]
    push_cast
    ring
  · rw [h2, h3]
    dsimp only
    have := List.countP_le_length (fun ex => decide (pred ex.1 = ex.2)) (l := batch)
    omega
  · rw [h3]

/-- The batch loop of `eval` succeeds on in-range labels, preserves the
invariant, and counts every example into `total`. -/
lemma runBatches_ok (pred : α → Nat) (loader : List (List (α × Nat))) :
    ∀ st : EvalState, (∀ b ∈ loader, ∀ ex ∈ b, ex.2 < 10) → Inv st →
    ∃ st', runBatches pred loader st = .ok st' ∧ Inv st' ∧
      st'.total = st.total + loader.flatten.length := by
  induction loader with
  | nil =>
    intro st _ hInv
    exact ⟨st, rfl, hInv, by simp⟩
  | cons b rest ih =>
    intro st hmem hInv
    obtain ⟨st1, h1, hInv1, ht1⟩ := evalBatch_ok pred st b (hmem b (by simp)) hInv
    obtain ⟨st', h2, hInv2, ht2⟩ :=
      ih st1 (fun b' hb' => hmem b' (List.mem_cons_of_mem b hb')) hInv1
    refine ⟨st', ?_, hInv2, ?_⟩
    · rw [runBatches, h1]
      exact h2
    · rw [ht2, ht1]
      simp
      omega

end MnistEval

/-! ## Claims about the evaluation metrics -/

/-- C1: for every non-empty test split (with labels in 0..9), the
`average_accuracy` value computed by `eval` equals `100` times the sum over
the 10 classes of `class_correct[i]`, divided by the sum over the 10 classes
of `class_total[i]`: the globally accumulated `correct`/`total` counters
agree with the per-class counters summed over classes. -/
theorem eval_average_accuracy_eq_class_sums (pred : α → Nat)
    (loader : List (List (α × Nat)))
    (hlabels : ∀ b ∈ loader, ∀ ex ∈ b, ex.2 < 10)
    (hne : loader.flatten ≠ []) :
    ∃ (st : MnistEval.EvalState) (rest : List (String × ℚ)),
      MnistEval.runBatches pred loader MnistEval.initState = .ok st ∧
      (st.correct : ℚ) = (∑ i ∈ Finset.range 10, st.class_correct i) ∧
      (st.total : ℚ) = (∑ i ∈ Finset.range 10, st.class_total i) ∧
      MnistEval.evalRun pred loader =
        .ok (("average_accuracy",
          100 * (∑ i ∈ Finset.range 10, st.class_correct i)
            / (∑ i ∈ Finset.range 10, st.class_total i)) :: rest) := by
  obtain ⟨st, hrun, ⟨i1, i2, i3, i4⟩, htot⟩ :=
    MnistEval.runBatches_ok pred loader MnistEval.initState hlabels MnistEval.Inv_initState
  have hlen : loader.flatten.length ≠ 0 := fun h => hne (List.length_eq_zero.mp h)
  have htot0 : st.total ≠ 0 := by omega
  refine ⟨st, (List.range 10).map (fun i => (MnistEval.classKey i,
      100 * st.class_correct i / (st.class_total i + 1 / 10000))),
    hrun, i1.symm, i2.symm, ?_⟩
  simp only [MnistEval.evalRun, hrun, MnistEval.evalResults, if_neg htot0]
  rw [i1, i2]

/-- C1 witness: instantiation at a concrete two-example split. -/
theorem eval_average_accuracy_eq_class_sums_witness :
    ∃ (st : MnistEval.EvalState) (rest : List (String × ℚ)),
      MnistEval.runBatches (fun n : Nat => n) [[(0, 0), (1, 2)]] MnistEval.initState
        = .ok st ∧
      (st.correct : ℚ) = (∑ i ∈ Finset.range 10, st.class_correct i) ∧
      (st.total : ℚ) = (∑ i ∈ Finset.range 10, st.class_total i) ∧
      MnistEval.evalRun (fun n : Nat => n) [[(0, 0), (1, 2)]] =
        .ok (("average_accuracy",
          100 * (∑ i ∈ Finset.range 10, st.class_correct i)
            / (∑ i ∈ Finset.range 10, st.class_total i)) :: rest) :=
  eval_average_accuracy_eq_class_sums (fun n => n) [[(0, 0), (1, 2)]]
    (by decide) (by decide)

/-- C2: for every test split (with labels in 0..9) and class index `i < 10`,
the per-class accuracy reported by `eval` is
`100 * class_correct[i] / (class_total[i] + 0.0001)`; for a class with zero
test examples that value is `0` rather than an error or an undefined
value. -/
theorem eval_per_class_accuracy_formula (pred : α → Nat)
    (loader : List (List (α × Nat)))
    (hlabels : ∀ b ∈ loader, ∀ ex ∈ b, ex.2 < 10)
    (hne : loader.flatten ≠ []) (i : Nat) (hi : i < 10) :
    ∃ (st : MnistEval.EvalState) (res : List (String × ℚ)),
      MnistEval.runBatches pred loader MnistEval.initState = .ok st ∧
      MnistEval.evalRun pred loader = .ok res ∧
      res[i + 1]? = some (MnistEval.classKey i,
        100 * st.class_correct i / (st.class_total i + 1 / 10000)) ∧
      (st.class_total i = 0 →
        100 * st.class_correct i / (st.class_total i + 1 / 10000) = 0) := by
  obtain ⟨st, hrun, ⟨i1, i2, i3, i4⟩, htot⟩ :=
    MnistEval.runBatches_ok pred loader MnistEval.initState hlabels MnistEval.Inv_initState
  have hlen : loader.flatten.length ≠ 0 := fun h => hne (List.length_eq_zero.mp h)
  have htot0 : st.total ≠ 0 := by omega
  refine ⟨st, ("average_accuracy", 100 * (st.correct : ℚ) / (st.total : ℚ)) ::
      (List.range 10).map (fun i => (MnistEval.classKey i,
        100 * st.class_correct i / (st.class_total i + 1 / 10000))), hrun, ?_, ?_, ?_⟩
  · simp only [MnistEval.evalRun, hrun, MnistEval.evalResults, if_neg htot0]
  · simp [List.getElem?_map, List.getElem?_range hi]
  · intro hzero
    have hcc : st.class_correct i = 0 :=
      le_antisymm (hzero ▸ (i4 i).2) (i4 i).1
    rw [hcc]
    simp

/-- C2 witness: instantiation at a concrete split and class 5, which has
zero test examples there. -/
theorem eval_per_class_accuracy_formula_witness :
    ∃ (st : MnistEval.EvalState) (res : List (String × ℚ)),
      MnistEval.runBatches (fun n : Nat => n) [[(0, 0), (1, 2)]] MnistEval.initState
        = .ok st ∧
      MnistEval.evalRun (fun n : Nat => n) [[(0, 0), (1, 2)]] = .ok res ∧
      res[5 + 1]? = some (MnistEval.classKey 5,
        100 * st.class_correct 5 / (st.class_total 5 + 1 / 10000)) ∧
      (st.class_total 5 = 0 →
        100 * st.class_correct 5 / (st.class_total 5 + 1 / 10000) = 0) :=
  eval_per_class_accuracy_formula (fun n => n) [[(0, 0), (1, 2)]]
    (by decide) (by decide) 5 (by decide)

/-- C8: for every non-empty test split (with labels in 0..9), the results
mapping returned by `eval` has exactly the eleven keys `average_accuracy`
and `class_0_accuracy` … `class_9_accuracy`, in insertion order, and every
value lies in the interval `[0, 100]`. -/
theorem eval_results_keys_and_bounds (pred : α → Nat)
    (loader : List (List (α × Nat)))
    (hlabels : ∀ b ∈ loader, ∀ ex ∈ b, ex.2 < 10)
    (hne : loader.flatten ≠ []) :
    ∃ res : List (String × ℚ),
      MnistEval.evalRun pred loader = .ok res ∧
      res.map Prod.fst =
        ["average_accuracy",
         "class_0_accuracy", "class_1_accuracy", "class_2_accuracy",
         "class_3_accuracy", "class_4_accuracy", "class_5_accuracy",
         "class_6_accuracy", "class_7_accuracy", "class_8_accuracy",
         "class_9_accuracy"] ∧
      ∀ p ∈ res, 0 ≤ p.2 ∧ p.2 ≤ 100 := by
  obtain ⟨st, hrun, ⟨i1, i2, i3, i4⟩, htot⟩ :=
    MnistEval.runBatches_ok pred loader MnistEval.initState hlabels MnistEval.Inv_initState
  have hlen : loader.flatten.length ≠ 0 := fun h => hne (List.length_eq_zero.mp h)
  have htot0 : st.total ≠ 0 := by omega
  have htpos : (0 : ℚ) < (st.total : ℚ) := by
    exact_mod_cast Nat.pos_of_ne_zero htot0
  refine ⟨("average_accuracy", 100 * (st.correct : ℚ) / (st.total : ℚ)) ::
      (List.range 10).map (fun i => (MnistEval.classKey i,
        100 * st.class_correct i / (st.class_total i + 1 / 10000))),
    by simp only [MnistEval.evalRun, hrun, MnistEval.evalResults, if_neg htot0], ?_, ?_⟩
  · simp only [List.map_cons, List.map_map]
    rw [show (Prod.fst ∘ fun i =>
        (MnistEval.classKey i,
          100 * st.class_correct i / (st.class_total i + 1 / 10000)))
      = MnistEval.classKey from rfl]
    decide
  · intro p hp
    rcases List.mem_cons.mp hp with hhead | htail
    · rw [hhead]
      constructor
      · positivity
      · rw [div_le_iff₀ htpos]
        have hle : (st.correct : ℚ) ≤ (st.total : ℚ) := by exact_mod_cast i3
        linarith
    · obtain ⟨i, hi, rfl⟩ := List.mem_map.mp htail
      obtain ⟨hcc0, hccle⟩ := i4 i
      have hct0 : (0 : ℚ) ≤ st.class_total i := le_trans hcc0 hccle
      have hd : (0 : ℚ) < st.class_total i + 1 / 10000 := by linarith
      constructor
      · exact div_nonneg (by linarith) (le_of_lt hd)
      · rw [div_le_iff₀ hd]
        linarith

/-- C8 witness: instantiation at a concrete two-example split. -/
theorem eval_results_keys_and_bounds_witness :
    ∃ res : List (String × ℚ),
      MnistEval.evalRun (fun n : Nat => n) [[(0, 0), (1, 2)]] = .ok res ∧
      res.map Prod.fst =
        ["average_accuracy",
         "class_0_accuracy", "class_1_accuracy", "class_2_accuracy",
         "class_3_accuracy", "class_4_accuracy", "class_5_accuracy",
         "class_6_accuracy", "class_7_accuracy", "class_8_accuracy",
         "class_9_accuracy"] ∧
      ∀ p ∈ res, 0 ≤ p.2 ∧ p.2 ≤ 100 :=
  eval_results_keys_and_bounds (fun n => n) [[(0, 0), (1, 2)]] (by decide) (by decide)

/-- C10: on a test data loader yielding zero examples, `eval` raises
`ZeroDivisionError` when computing `average_accuracy`: the aggregate
denominator `total` is used unguarded, unlike the per-class denominators
which carry the `0.0001` additive constant. -/
theorem eval_empty_split_zero_division (pred : α → Nat)
    (loader : List (List (α × Nat)))
    (hempty : loader.flatten = []) :
    MnistEval.evalRun pred loader = .error .zeroDivisionError := by
  have hbatches : ∀ b ∈ loader, b = [] := List.flatten_eq_nil_iff.mp hempty
  have hlabels : ∀ b ∈ loader, ∀ ex ∈ b, ex.2 < 10 := by
    intro b hb ex hex
    rw [hbatches b hb] at hex
    cases hex
  obtain ⟨st, hrun, _, htot⟩ :=
    MnistEval.runBatches_ok pred loader MnistEval.initState hlabels MnistEval.Inv_initState
  have htot0 : st.total = 0 := by
    rw [htot, hempty]
    simp [MnistEval.initState]
  simp only [MnistEval.evalRun, hrun, MnistEval.evalResults, if_pos htot0]

/-- C10 witness: the empty loader. -/
theorem eval_empty_split_zero_division_witness :
    MnistEval.evalRun (fun n : Nat => n) ([] : List (List (Nat × Nat)))
      = .error .zeroDivisionError :=
  eval_empty_split_zero_division (fun n => n) [] (by decide)

/-! ## Helper lemmas about the training loop -/

namespace MnistTrain

variable {P B : Type}

/-- Effect of one full pass over the batches on the model and the trace. -/
lemma trainBatches_foldl (stepF : P → B → P) (batches : List B) :
    ∀ (m : PyModel P) (tr : List TrainEvent),
    batches.foldl (trainBatchStep stepF) (m, tr) =
      ({ params := batches.foldl stepF m.params, training := m.training },
       tr ++ batches.flatMap (fun _ =>
         [.zeroGrad, .forwardPass, .lossComp, .backwardPass, .optimStep])) := by
  induction batches with
  | nil => intro m tr; simp
  | cons b rest ih =>
    intro m tr
    rw [List.foldl_cons, trainBatchStep, ih]
    simp

/-- Effect of the epoch loop: `epochs` iterated passes, with `epochs`
copies of the per-pass trace appended. -/
lemma trainEpochs_foldl (stepF : P → B → P) (batches : List B) (epochs : Nat) :
    ∀ (m : PyModel P) (tr : List TrainEvent),
    (List.range epochs).foldl (fun acc _ => batches.foldl (trainBatchStep stepF) acc) (m, tr) =
      ({ params := (fun p => batches.foldl stepF p)^[epochs] m.params, training := m.training },
       tr ++ (List.replicate epochs (batches.flatMap (fun _ =>
         [TrainEvent.zeroGrad, .forwardPass, .lossComp, .backwardPass,
          .optimStep]))).flatten) := by
  induction epochs with
  | zero => intro m tr; simp
  | succ n ih =>
    intro m tr
    rw [List.range_succ, List.foldl_append, ih, List.foldl_cons, List.foldl_nil,
      trainBatches_foldl]
    simp [Function.iterate_succ_apply', List.replicate_succ']

/-- Each pass issues exactly one optimiser step per batch. -/
lemma count_optimStep_flatMap (batches : List B) :
    (batches.flatMap (fun _ => [TrainEvent.zeroGrad, .forwardPass, .lossComp,
      .backwardPass, .optimStep])).count TrainEvent.optimStep = batches.length := by
  induction batches with
  | nil => rfl
  | cons b rest ih => simp [List.count_append, ih, List.count_cons]

/-- Counting one event across `n` concatenated copies of a trace. -/
lemma count_optimStep_replicate_flatten (n : Nat) (E : List TrainEvent) :
    ((List.replicate n E).flatten).count TrainEvent.optimStep
      = n * E.count TrainEvent.optimStep := by
  induction n with
  | zero => simp
  | succ k ih =>
    rw [List.replicate_succ, List.flatten_cons, List.count_append, ih]
    ring

end MnistTrain

/-! ## Claims about training, the architecture, devices, loading, the CLI -/

/-- C4: for every model, training split and epoch count, `train` performs
exactly `epochs` full passes over the training batches; per batch it issues,
in order, `zero_grad`, the forward pass, the cross-entropy loss computation,
back-propagation and one SGD step; after all epochs it switches the model to
inference (eval) mode and returns that model, whose parameters are the
`epochs`-fold iterate of a full shuffled pass. -/
theorem train_epoch_and_batch_structure {P B : Type} (stepF : P → B → P)
    (model : PyModel P) (batches : List B) (epochs : Nat) :
    MnistTrain.train stepF model batches epochs =
      ({ params := (fun p => batches.foldl stepF p)^[epochs] model.params,
         training := false },
       [.toDevice, .setTrain] ++
         (List.replicate epochs (batches.flatMap (fun _ =>
           [TrainEvent.zeroGrad, .forwardPass, .lossComp, .backwardPass,
            .optimStep]))).flatten ++ [.setEval]) ∧
    (MnistTrain.train stepF model batches epochs).2.count TrainEvent.optimStep
      = epochs * batches.length := by
  have h := MnistTrain.trainEpochs_foldl stepF batches epochs
    { params := model.params, training := true } [.toDevice, .setTrain]
  constructor
  · simp only [MnistTrain.train]
    rw [h]
  · simp only [MnistTrain.train]
    rw [h]
    simp [List.count_append, MnistTrain.count_optimStep_replicate_flatten,
      MnistTrain.count_optimStep_flatMap, List.count_cons]

/-- C5: the three `MNIST_CNN` definitions — shared model module, Training
script, Evaluation script — are definitionally equal: identical layer
configurations, flatten size `64*4*4`, output width `10`, and forward
computation, so a parameter blob saved by Training loads cleanly into the
model constructed by Evaluation. -/
theorem mnist_cnn_definitions_agree :
    MnistModel.MNIST_CNN = MnistTrain.MNIST_CNN ∧
    MnistModel.MNIST_CNN = MnistEval.MNIST_CNN ∧
    MnistModel.MNIST_CNN.fc1 = { in_features := 64 * 4 * 4, out_features := 10 } ∧
    MnistModel.MNIST_CNN.forward =
      [.conv1, .pool, .relu, .conv2, .pool, .relu, .flatten (64 * 4 * 4),
       .fc1, .logSoftmax] :=
  ⟨rfl, rfl, rfl, rfl⟩

/-- C6: in both the Training and the Evaluation entry points, requesting
CUDA when no CUDA device is available selects the CPU device and logs the
warning (second component `true`) instead of raising; the embedded selection
function is total, so the run proceeds on the fallback device. -/
theorem cuda_unavailable_falls_back_to_cpu :
    MnistTrain.selectDevice true false = (PyDevice.cpu, true) ∧
    MnistEval.selectDevice true false = (PyDevice.cpu, true) :=
  ⟨rfl, rfl⟩

/-- C7: `load_to_device` first attempts the default-device load-and-apply;
if it succeeds its model is returned, and if it raises for any reason the
load is retried exactly once mapped to CPU, whose outcome — success or
error — is returned unchanged. -/
theorem load_to_device_cpu_retry {E W M : Type}
    (torch_load torch_load_cpu : Except E W) (load_state_dict : W → Except E M) :
    (∀ m, torch_load.bind load_state_dict = .ok m →
      MnistEval.load_to_device torch_load torch_load_cpu load_state_dict = .ok m) ∧
    (∀ e, torch_load.bind load_state_dict = .error e →
      MnistEval.load_to_device torch_load torch_load_cpu load_state_dict
        = torch_load_cpu.bind load_state_dict) := by
  constructor
  · intro m h
    simp only [MnistEval.load_to_device, h]
  · intro e h
    simp only [MnistEval.load_to_device, h]

/-- C7 witness: a failing default load followed by a succeeding CPU-mapped
load returns the CPU-loaded model. -/
theorem load_to_device_cpu_retry_witness :
    MnistEval.load_to_device (Except.error 0) (Except.ok 1)
      (fun w : Nat => (Except.ok (w + 1) : Except Nat Nat)) = .ok 2 :=
  ((load_to_device_cpu_retry (Except.error 0) (Except.ok 1)
      (fun w : Nat => (Except.ok (w + 1) : Except Nat Nat))).2 0 rfl).trans rfl

/-- C9: with `--use_cuda` declared as `type=bool`, every non-empty argument
string — including `"False"` and `"0"` — parses to `True` in both CLIs;
only omitting the option or passing the empty string yields `False`. -/
theorem use_cuda_parsing_truthiness :
    (∀ s : String, s ≠ "" →
      MnistTrain.parse_use_cuda (some s) = true ∧
      MnistEval.parse_use_cuda (some s) = true) ∧
    MnistTrain.parse_use_cuda (some "False") = true ∧
    MnistEval.parse_use_cuda (some "False") = true ∧
    MnistTrain.parse_use_cuda (some "0") = true ∧
    MnistEval.parse_use_cuda (some "0") = true ∧
    MnistTrain.parse_use_cuda none = false ∧
    MnistEval.parse_use_cuda none = false ∧
    MnistTrain.parse_use_cuda (some "") = false ∧
    MnistEval.parse_use_cuda (some "") = false := by
  refine ⟨fun s hs => ⟨?_, ?_⟩, by decide, by decide, by decide, by decide,
    rfl, rfl, by decide, by decide⟩
  · simp [MnistTrain.parse_use_cuda, pyBool, hs]
  · simp [MnistEval.parse_use_cuda, pyBool, hs]

/-- C3: each save operation (`save_conf` in Acquisition,
`save_model_and_conf` in Training, `save_results_and_conf` in Evaluation)
writes each artifact and then raises an `IOError` with a fixed message if
and only if the just-written file does not exist on disk; on success it
returns the path(s) of the written artifact(s). -/
theorem save_functions_check_artifacts (vanished : String → Bool) (fs : FS)
    (conf : List (String × String)) (results : List (String × ℚ)) (d : String) :
    ((MnistDownload.save_conf vanished fs conf d
        = .error (.ioError "failed to save the config")
      ↔ writeArtifact fs vanished (d ++ "/download_conf.json")
          (d ++ "/download_conf.json") = false) ∧
     (writeArtifact fs vanished (d ++ "/download_conf.json")
          (d ++ "/download_conf.json") = true →
       MnistDownload.save_conf vanished fs conf d
         = .ok (d ++ "/download_conf.json",
             writeArtifact fs vanished (d ++ "/download_conf.json")))) ∧
    ((MnistTrain.save_model_and_conf vanished fs conf d
        = .error (.ioError "failed to save the model")
      ↔ writeArtifact fs vanished (d ++ "/model.pkl") (d ++ "/model.pkl") = false) ∧
     (writeArtifact fs vanished (d ++ "/model.pkl") (d ++ "/model.pkl") = true →
       (MnistTrain.save_model_and_conf vanished fs conf d
          = .error (.ioError "failed to save the config")
        ↔ writeArtifact (writeArtifact fs vanished (d ++ "/model.pkl")) vanished
            (d ++ "/training_conf.json") (d ++ "/training_conf.json") = false)) ∧
     (writeArtifact fs vanished (d ++ "/model.pkl") (d ++ "/model.pkl") = true →
       writeArtifact (writeArtifact fs vanished (d ++ "/model.pkl")) vanished
           (d ++ "/training_conf.json") (d ++ "/training_conf.json") = true →
       MnistTrain.save_model_and_conf vanished fs conf d
         = .ok ((d ++ "/model.pkl", d ++ "/training_conf.json"),
             writeArtifact (writeArtifact fs vanished (d ++ "/model.pkl")) vanished
               (d ++ "/training_conf.json")))) ∧
    ((MnistEval.save_results_and_conf vanished fs results conf d
        = .error (.ioError "failed to save the results")
      ↔ writeArtifact fs vanished (d ++ "/eval_results.json")
          (d ++ "/eval_results.json") = false) ∧
     (writeArtifact fs vanished (d ++ "/eval_results.json")
          (d ++ "/eval_results.json") = true →
       (MnistEval.save_results_and_conf vanished fs results conf d
          = .error (.ioError "failed to save the config")
        ↔ writeArtifact (writeArtifact fs vanished (d ++ "/eval_results.json")) vanished
            (d ++ "/eval_conf.json") (d ++ "/eval_conf.json") = false)) ∧
     (writeArtifact fs vanished (d ++ "/eval_results.json")
          (d ++ "/eval_results.json") = true →
       writeArtifact (writeArtifact fs vanished (d ++ "/eval_results.json")) vanished
           (d ++ "/eval_conf.json") (d ++ "/eval_conf.json") = true →
       MnistEval.save_results_and_conf vanished fs results conf d
         = .ok ((d ++ "/eval_results.json", d ++ "/eval_conf.json"),
             writeArtifact (writeArtifact fs vanished (d ++ "/eval_results.json")) vanished
               (d ++ "/eval_conf.json")))) := by
  refine ⟨⟨?_, ?_⟩, ⟨?_, ?_, ?_⟩, ⟨?_, ?_, ?_⟩⟩
  · cases h : writeArtifact fs vanished (d ++ "/download_conf.json")
        (d ++ "/download_conf.json") <;>
      simp [MnistDownload.save_conf, h]
  · intro h
    simp [MnistDownload.save_conf, h]
  · cases h1 : writeArtifact fs vanished (d ++ "/model.pkl") (d ++ "/model.pkl") <;>
      cases h2 : writeArtifact (writeArtifact fs vanished (d ++ "/model.pkl")) vanished
          (d ++ "/training_conf.json") (d ++ "/training_conf.json") <;>
      simp [MnistTrain.save_model_and_conf, h1, h2]
  · intro h1
    cases h2 : writeArtifact (writeArtifact fs vanished (d ++ "/model.pkl")) vanished
        (d ++ "/training_conf.json") (d ++ "/training_conf.json") <;>
      simp [MnistTrain.save_model_and_conf, h1, h2]
  · intro h1 h2
    simp [MnistTrain.save_model_and_conf, h1, h2]
  · cases h1 : writeArtifact fs vanished (d ++ "/eval_results.json")
        (d ++ "/eval_results.json") <;>
      cases h2 : writeArtifact (writeArtifact fs vanished (d ++ "/eval_results.json")) vanished
          (d ++ "/eval_conf.json") (d ++ "/eval_conf.json") <;>
      simp [MnistEval.save_results_and_conf, h1, h2]
  · intro h1
    cases h2 : writeArtifact (writeArtifact fs vanished (d ++ "/eval_results.json")) vanished
        (d ++ "/eval_conf.json") (d ++ "/eval_conf.json") <;>
      simp [MnistEval.save_results_and_conf, h1, h2]
  · intro h1 h2
    simp [MnistEval.save_results_and_conf, h1, h2]

/-- C3 witness: with no interference every save succeeds returning its
paths; under interference that removes the model file, Training's save
raises the fixed `IOError`. -/
theorem save_functions_check_artifacts_witness :
    MnistDownload.save_conf (fun _ => false) (fun _ => false) [] "out"
      = .ok ("out/download_conf.json",
          writeArtifact (fun _ => false) (fun _ => false) ("out" ++ "/download_conf.json")) ∧
    MnistTrain.save_model_and_conf (fun _ => true) (fun _ => false) [] "out"
      = .error (.ioError "failed to save the model") :=
  ⟨(save_functions_check_artifacts (fun _ => false) (fun _ => false) [] [] "out").1.2
      (by decide),
   (save_functions_check_artifacts (fun _ => true) (fun _ => false) [] [] "out").2.1.1.mpr
      (by decide)⟩

/-- C9 witness: the non-empty string `"False"` parses to `True`. -/
theorem use_cuda_parsing_truthiness_witness :
    ("False" : String) ≠ "" ∧
    MnistTrain.parse_use_cuda (some "False") = true ∧
    MnistEval.parse_use_cuda (some "False") = true :=
  ⟨by decide, (use_cuda_parsing_truthiness.1 "False" (by decide)).1,
   (use_cuda_parsing_truthiness.1 "False" (by decide)).2⟩

end Atlas
